import Mathlib

/-!
Shallow embedding of the preloaded-fastener formula library
(`thread_fast`): the NASA-TM-106943, NASA-STD-5020B, NSTS-08307A and
ISO thread-geometry formulas that the verified claims refer to.

Python floats are modelled as exact rationals (`ℚ`) except where the
source calls `np.sqrt`, which is modelled over the reals with
`Real.sqrt`.  A Python function that can raise (a failed `assert`, a
`ZeroDivisionError`, or a `NameError` from an unbound identifier) is
modelled as returning `Except Err α`; the guards appear in the same
order as in the Python body.
-/

namespace ThreadFast

/-- Error kinds a formula can raise: a failed `assert`, a division by
zero, or an unbound-name lookup. -/
inductive Err where
  | assertionError
  | zeroDivisionError
  | nameError
  deriving DecidableEq, Repr

/-- Result of a margin-of-safety formula: a finite rational margin, or
`np.inf` returned by the explicit zero-load guards. -/
inductive MSVal where
  | finite (x : ℚ)
  | posInf
  deriving DecidableEq, Repr

namespace NasaTM106943

/-- `nasa_tm_106943.eq14`: max expected preload, simplified equation
(uncertainty 0.25 assumed): `assert K > 0; assert D > 0;
P_0_max = T/(K*D) * 1.25`. -/
def eq14 (T K D : ℚ) : Except Err ℚ :=
  if ¬ (K > 0) then .error .assertionError
  else if ¬ (D > 0) then .error .assertionError
  else .ok (T / (K * D) * (5 / 4))

/-- `nasa_tm_106943.eq16`: min expected preload, simplified equation
(uncertainty 0.25 and relaxation 5% assumed): `assert K > 0;
assert D > 0; P_0_min = T/(K*D) * 0.714`. -/
def eq16 (T K D : ℚ) : Except Err ℚ :=
  if ¬ (K > 0) then .error .assertionError
  else if ¬ (D > 0) then .error .assertionError
  else .ok (T / (K * D) * (714 / 1000))

/-- `nasa_tm_106943.eq17`: total axial load in the fastener:
`assert SF >= 1.0; assert 0.0 >= n >= 1.0;
P_b = P_0_max + (SF * n * phi * P_et)`.  The chained Python comparison
`0.0 >= n >= 1.0` means `0 ≥ n ∧ n ≥ 1`. -/
def eq17 (P_0_max SF n phi P_et : ℚ) : Except Err ℚ :=
  if ¬ (SF ≥ 1) then .error .assertionError
  else if ¬ (0 ≥ n ∧ n ≥ 1) then .error .assertionError
  else .ok (P_0_max + SF * n * phi * P_et)

/-- `nasa_tm_106943.eq20`: change in axial bolt load:
`assert 0.0 >= n >= 1.0;
delta_P_b = (P_0 / (delta_b + (1.0-n)*delta_j)) * delta`. -/
def eq20 (P_0 delta_b delta_j n delta : ℚ) : Except Err ℚ :=
  if ¬ (0 ≥ n ∧ n ≥ 1) then .error .assertionError
  else if delta_b + (1 - n) * delta_j = 0 then .error .zeroDivisionError
  else .ok (P_0 / (delta_b + (1 - n) * delta_j) * delta)

/-- `nasa_tm_106943.eq28`: total externally applied axial load:
`assert 0.0 >= n >= 1.0; P_et = delta_P_b * ((K_b + K_j) / (n * K_b))`. -/
def eq28 (delta_P_b K_b K_j n : ℚ) : Except Err ℚ :=
  if ¬ (0 ≥ n ∧ n ≥ 1) then .error .assertionError
  else if n * K_b = 0 then .error .zeroDivisionError
  else .ok (delta_P_b * ((K_b + K_j) / (n * K_b)))

/-- `nasa_tm_106943.eq29`: stiffness (load) factor, with no input
validation in the source: `phi = K_b / (K_b + K_j)`. -/
def eq29 (K_b K_j : ℚ) : Except Err ℚ :=
  if K_b + K_j = 0 then .error .zeroDivisionError
  else .ok (K_b / (K_b + K_j))

/-- `nasa_tm_106943.eq30`: change in axial bolt load:
`assert 0.0 >= n >= 1.0; delta_P_b = n * phi * P_et`. -/
def eq30 (n phi P_et : ℚ) : Except Err ℚ :=
  if ¬ (0 ≥ n ∧ n ≥ 1) then .error .assertionError
  else .ok (n * phi * P_et)

/-- `nasa_tm_106943.eq59`: margin of safety for combined tension and
shear: `MS = (1.0 / np.sqrt(R_t**2 + R_s**3)) - 1.0`  (the
deprecation `print` is a side effect with no influence on the value). -/
noncomputable def eq59 (R_t R_s : ℝ) : ℝ :=
  1 / Real.sqrt (R_t ^ 2 + R_s ^ 3) - 1

/-- `nasa_tm_106943.eq62`: margin of safety for combined tension,
bending and shear: `MS = (1.0 / np.sqrt((R_t + R_b)**2 + R_s**3)) - 1.0`. -/
noncomputable def eq62 (R_t R_b R_s : ℝ) : ℝ :=
  1 / Real.sqrt ((R_t + R_b) ^ 2 + R_s ^ 3) - 1

/-- `nasa_tm_106943.eq68`: margin of safety against joint separation:
`assert SF >= 1.0; MS = (P_0_min / (SF * P_sep)) - 1.0`. -/
def eq68 (P_0_min P_sep SF : ℚ) : Except Err ℚ :=
  if ¬ (SF ≥ 1) then .error .assertionError
  else if SF * P_sep = 0 then .error .zeroDivisionError
  else .ok (P_0_min / (SF * P_sep) - 1)

end NasaTM106943

namespace NasaStd5020B

/-- `nasa_std_5020b.eq6`: margin of safety for ultimate tensile load:
`assert FF >= 1.0; assert FS_u >= 1.0;
MS_u = P_tu_allow / (FF * FS_u * P_tL) - 1.0`.  There is no zero-load
guard, so a zero denominator raises `ZeroDivisionError`. -/
def eq6 (P_tu_allow FS_u P_tL FF : ℚ) : Except Err MSVal :=
  if ¬ (FF ≥ 1) then .error .assertionError
  else if ¬ (FS_u ≥ 1) then .error .assertionError
  else if FF * FS_u * P_tL = 0 then .error .zeroDivisionError
  else .ok (.finite (P_tu_allow / (FF * FS_u * P_tL) - 1))

/-- `nasa_std_5020b.eq9`: stiffness factor:
`assert k_b > 0.0; assert k_c > 0.0; phi = k_b / (k_b + k_c)`. -/
def eq9 (k_b k_c : ℚ) : Except Err ℚ :=
  if ¬ (k_b > 0) then .error .assertionError
  else if ¬ (k_c > 0) then .error .assertionError
  else .ok (k_b / (k_b + k_c))

/-- `nasa_std_5020b.eq14`: ultimate margin of safety for shear:
`assert FS_u >= 1.0; assert FF >= 1.0; if P_sL == 0.0: return np.inf;
MS_u = P_su_allow / (FF * FS_u * P_sL) - 1.0`. -/
def eq14 (P_su_allow FS_u P_sL FF : ℚ) : Except Err MSVal :=
  if ¬ (FS_u ≥ 1) then .error .assertionError
  else if ¬ (FF ≥ 1) then .error .assertionError
  else if P_sL = 0 then .ok .posInf
  else if FF * FS_u * P_sL = 0 then .error .zeroDivisionError
  else .ok (.finite (P_su_allow / (FF * FS_u * P_sL) - 1))

/-- `nasa_std_5020b.eq19`: margin of safety for separation:
`assert FF >= 1.0; MS_sep = P_p_min / (FF * FS_sep * P_tL) - 1.0`.
The body reads `FS_sep`, which is bound neither as a parameter (the
parameter is `SF_sep`) nor at module level, so after the assert the
body always raises `NameError`; `SF_sep`, `P_p_min` and `P_tL` are
never used. -/
def eq19 (P_p_min SF_sep P_tL FF : ℚ) : Except Err MSVal :=
  if ¬ (FF ≥ 1) then .error .assertionError
  else .error .nameError

end NasaStd5020B

namespace Nsts08307A

/-- `nsts_08307a.bolt_axial_load_for_strength`: bolt axial load for
strength margins: `assert SF >= 1.0; assert 0.0 <= n <= 1.0;
P_b = PLD_max + n * phi * (SF * P)`. -/
def bolt_axial_load_for_strength (PLD_max n phi SF P : ℚ) : Except Err ℚ :=
  if ¬ (SF ≥ 1) then .error .assertionError
  else if ¬ (0 ≤ n ∧ n ≤ 1) then .error .assertionError
  else .ok (PLD_max + n * phi * (SF * P))

end Nsts08307A

namespace Iso68

/-- `iso_68_1998.eq_H`: height of the fundamental thread triangle:
`assert P > 0.0; H = (np.sqrt(3.0) / 2.0) * P`. -/
noncomputable def eq_H (P : ℝ) : Except Err ℝ :=
  if ¬ (P > 0) then .error .assertionError
  else .ok (Real.sqrt 3 / 2 * P)

end Iso68

namespace Iso724

/-- `iso_724_1993.eq_d_2` with the triangle height `H` supplied (when
`H` is `None` the source derives it via `eq_H(P)` first): basic pitch
diameter of the external thread, `d_2 = d - (3.0 / 4.0) * H`. -/
noncomputable def eq_d_2 (d H : ℝ) : ℝ := d - 3 / 4 * H

/-- `iso_724_1993.eq_d_1` with the triangle height `H` supplied (when
`H` is `None` the source derives it via `eq_H(P)` first): basic minor
diameter of the external thread, `d_1 = d - (5.0 / 4.0) * H`. -/
noncomputable def eq_d_1 (d H : ℝ) : ℝ := d - 5 / 4 * H

end Iso724

end ThreadFast

namespace ThreadFast

/-- Claim C2: for every loading-plane factor `n` and all other
arguments, `eq17` fails with an assertion error and never returns a
value, because its guard `0.0 >= n >= 1.0` is unsatisfiable; the same
guard makes `eq20`, `eq28` and `eq30` fail on every input as well. -/
theorem C2_unsatisfiable_loading_plane_guard :
    (∀ P_0_max SF n phi P_et : ℚ,
      NasaTM106943.eq17 P_0_max SF n phi P_et = .error .assertionError) ∧
    (∀ P_0 delta_b delta_j n delta : ℚ,
      NasaTM106943.eq20 P_0 delta_b delta_j n delta = .error .assertionError) ∧
    (∀ delta_P_b K_b K_j n : ℚ,
      NasaTM106943.eq28 delta_P_b K_b K_j n = .error .assertionError) ∧
    (∀ n phi P_et : ℚ,
      NasaTM106943.eq30 n phi P_et = .error .assertionError) := by
  have hguard : ∀ n : ℚ, ¬ (0 ≥ n ∧ n ≥ 1) := by
    rintro n ⟨h1, h2⟩
    linarith
  refine ⟨?_, ?_, ?_, ?_⟩
  · intro P_0_max SF n phi P_et
    by_cases hSF : SF ≥ 1 <;>
      simp [NasaTM106943.eq17, hSF, hguard n]
  · intro P_0 delta_b delta_j n delta
    simp [NasaTM106943.eq20, hguard n]
  · intro delta_P_b K_b K_j n
    simp [NasaTM106943.eq28, hguard n]
  · intro n phi P_et
    simp [NasaTM106943.eq30, hguard n]

/-- Claim C3 counterexample: at `T = K = D = 1` the simplified
minimum-preload equation `eq16` returns `0.714`, not the claimed
`0.75 = 3/4`. -/
theorem C3_eq16_factor_counterexample :
    NasaTM106943.eq16 1 1 1 = .ok (714 / 1000) ∧
      ((714 : ℚ) / 1000) ≠ 3 / 4 := by
  constructor
  · norm_num [NasaTM106943.eq16]
  · norm_num

/-- Claim C3 (amended): for all `T` and all `K > 0`, `D > 0`, the
simplified preload equations return `P_0_max = 1.25 * T/(K*D)` from
`eq14` and `P_0_min = 0.714 * T/(K*D)` from `eq16` (the 0.714 constant
folds the assumed 5% relaxation into the 0.75 uncertainty factor). -/
theorem C3_simplified_preload_constants (T K D : ℚ)
    (hK : K > 0) (hD : D > 0) :
    NasaTM106943.eq14 T K D = .ok (T / (K * D) * (5 / 4)) ∧
      NasaTM106943.eq16 T K D = .ok (T / (K * D) * (714 / 1000)) := by
  constructor
  · simp [NasaTM106943.eq14, hK, hD]
  · simp [NasaTM106943.eq16, hK, hD]

/-- Claim C3 witness: the amended preload-constant theorem evaluated at
`T = K = D = 1`. -/
theorem C3_simplified_preload_constants_witness :
    (1 : ℚ) > 0 ∧
      (NasaTM106943.eq14 1 1 1 = .ok (1 / (1 * 1) * (5 / 4)) ∧
        NasaTM106943.eq16 1 1 1 = .ok (1 / (1 * 1) * (714 / 1000))) :=
  ⟨by norm_num, C3_simplified_preload_constants 1 1 1 (by norm_num) (by norm_num)⟩

/-- Claim C4: for every minimum preload, separation safety factor
`SF_sep ≥ 1`, limit tensile load, and fitting factor `FF ≥ 1`, the
NASA-STD-5020B separation margin `eq19` fails with a name-resolution
error (its body reads the undefined `FS_sep` instead of the parameter
`SF_sep`) and never returns a margin. -/
theorem C4_eq19_name_error (P_p_min SF_sep P_tL FF : ℚ)
    (hsep : SF_sep ≥ 1) (hFF : FF ≥ 1) :
    NasaStd5020B.eq19 P_p_min SF_sep P_tL FF = .error .nameError := by
  simp [NasaStd5020B.eq19, hFF]

/-- Claim C4 witness: `eq19` at preload 100, separation factor 1.2,
load 50, fitting factor 1.15. -/
theorem C4_eq19_name_error_witness :
    (6 : ℚ) / 5 ≥ 1 ∧ (23 : ℚ) / 20 ≥ 1 ∧
      NasaStd5020B.eq19 100 (6 / 5) 50 (23 / 20) = .error .nameError :=
  ⟨by norm_num, by norm_num,
    C4_eq19_name_error 100 (6 / 5) 50 (23 / 20) (by norm_num) (by norm_num)⟩

end ThreadFast

namespace ThreadFast

/-- Claim C5 counterexample: at zero limit load with valid factors
(`allowable = 1000`, `FS_u = 1.4`, `FF = 1.15`), the ultimate tensile
margin `eq6` of NASA-STD-5020B fails with a division-by-zero error
instead of returning `+infinity`. -/
theorem C5_eq6_zero_load_counterexample :
    NasaStd5020B.eq6 1000 (7 / 5) 0 (23 / 20) = .error .zeroDivisionError ∧
      NasaStd5020B.eq6 1000 (7 / 5) 0 (23 / 20) ≠ .ok .posInf := by
  have h : NasaStd5020B.eq6 1000 (7 / 5) 0 (23 / 20) =
      .error .zeroDivisionError := by
    norm_num [NasaStd5020B.eq6]
  refine ⟨h, ?_⟩
  rw [h]
  exact fun hh => Except.noConfusion hh

/-- Claim C5 (amended): at zero limit load with any allowable `> 0`,
safety factor `≥ 1` and fitting factor `≥ 1`, the ultimate shear
margin `eq14` of NASA-STD-5020B returns `+infinity` through its
explicit zero-load guard, but the ultimate tensile margin `eq6` has no
such guard and fails with a division-by-zero error. -/
theorem C5_zero_load_margins (allow SF FF : ℚ)
    (hallow : allow > 0) (hSF : SF ≥ 1) (hFF : FF ≥ 1) :
    NasaStd5020B.eq14 allow SF 0 FF = .ok .posInf ∧
      NasaStd5020B.eq6 allow SF 0 FF = .error .zeroDivisionError := by
  constructor
  · simp [NasaStd5020B.eq14, hSF, hFF]
  · simp [NasaStd5020B.eq6, hSF, hFF]

/-- Claim C5 witness: the zero-load behaviour at `allowable = 1000`,
`FS_u = 1.4`, `FF = 1.15`. -/
theorem C5_zero_load_margins_witness :
    (1000 : ℚ) > 0 ∧ (7 : ℚ) / 5 ≥ 1 ∧ (23 : ℚ) / 20 ≥ 1 ∧
      (NasaStd5020B.eq14 1000 (7 / 5) 0 (23 / 20) = .ok .posInf ∧
        NasaStd5020B.eq6 1000 (7 / 5) 0 (23 / 20) = .error .zeroDivisionError) :=
  ⟨by norm_num, by norm_num, by norm_num,
    C5_zero_load_margins 1000 (7 / 5) (23 / 20) (by norm_num) (by norm_num)
      (by norm_num)⟩

/-- Claim C6: for all allowable `> 0`, fitting factor `≥ 1`, safety
factor `≥ 1` and limit load `> 0`, both `eq6` and `eq14` of
NASA-STD-5020B return the general margin of safety
`allowable / (FF * SF * load) - 1`. -/
theorem C6_general_margin_of_safety (allow FF SF load : ℚ)
    (hallow : allow > 0) (hFF : FF ≥ 1) (hSF : SF ≥ 1) (hload : load > 0) :
    NasaStd5020B.eq6 allow SF load FF =
        .ok (.finite (allow / (FF * SF * load) - 1)) ∧
      NasaStd5020B.eq14 allow SF load FF =
        .ok (.finite (allow / (FF * SF * load) - 1)) := by
  have hden : FF * SF * load ≠ 0 := by positivity
  have hload0 : load ≠ 0 := ne_of_gt hload
  constructor
  · simp [NasaStd5020B.eq6, hFF, hSF, hden]
  · simp [NasaStd5020B.eq14, hFF, hSF, hden, hload0]

/-- Claim C6 witness: `margin_of_safety(allowable=1000, FF=1.15,
SF=1.4, load=500)` equals `1000/805 - 1 = 39/161 ≈ 0.2422`. -/
theorem C6_general_margin_of_safety_witness :
    (1000 : ℚ) > 0 ∧ (23 : ℚ) / 20 ≥ 1 ∧ (7 : ℚ) / 5 ≥ 1 ∧ (500 : ℚ) > 0 ∧
      (NasaStd5020B.eq6 1000 (7 / 5) 500 (23 / 20) =
          .ok (.finite (1000 / (23 / 20 * (7 / 5) * 500) - 1)) ∧
        NasaStd5020B.eq14 1000 (7 / 5) 500 (23 / 20) =
          .ok (.finite (1000 / (23 / 20 * (7 / 5) * 500) - 1))) ∧
      (1000 / (23 / 20 * (7 / 5) * 500) - 1 : ℚ) = 39 / 161 :=
  ⟨by norm_num, by norm_num, by norm_num, by norm_num,
    C6_general_margin_of_safety 1000 (23 / 20) (7 / 5) 500 (by norm_num)
      (by norm_num) (by norm_num) (by norm_num),
    by norm_num⟩

/-- Claim C7: for every maximum preload, loading-plane factor
`n ∈ [0,1]`, stiffness factor `phi`, safety factor `SF ≥ 1` and
external load `P`, the NSTS-08307A strength-case bolt axial load is
`PLD_max + n * phi * (SF * P)`: the safety factor multiplies only the
external-load term, never the preload. -/
theorem C7_bolt_axial_load_for_strength (PLD_max n phi SF P : ℚ)
    (hSF : SF ≥ 1) (hn0 : 0 ≤ n) (hn1 : n ≤ 1) :
    Nsts08307A.bolt_axial_load_for_strength PLD_max n phi SF P =
      .ok (PLD_max + n * phi * (SF * P)) := by
  simp [Nsts08307A.bolt_axial_load_for_strength, hSF, hn0, hn1]

/-- Claim C7 witness: preload 100, `n = 1/2`, `phi = 1/4`, `SF = 1.4`,
external load 200. -/
theorem C7_bolt_axial_load_for_strength_witness :
    (7 : ℚ) / 5 ≥ 1 ∧ (0 : ℚ) ≤ 1 / 2 ∧ (1 : ℚ) / 2 ≤ 1 ∧
      Nsts08307A.bolt_axial_load_for_strength 100 (1 / 2) (1 / 4) (7 / 5) 200 =
        .ok (100 + 1 / 2 * (1 / 4) * (7 / 5 * 200)) :=
  ⟨by norm_num, by norm_num, by norm_num,
    C7_bolt_axial_load_for_strength 100 (1 / 2) (1 / 4) (7 / 5) 200
      (by norm_num) (by norm_num) (by norm_num)⟩

/-- Claim C8: for every minimum preload, separation safety factor
`SF ≥ 1` and positive separation load, the TM-106943 joint-separation
margin `eq68` returns `P_0_min / (SF * P_sep) - 1`, built from the
minimum predicted preload. -/
theorem C8_separation_margin (P_0_min P_sep SF : ℚ)
    (hSF : SF ≥ 1) (hsep : 0 < P_sep) :
    NasaTM106943.eq68 P_0_min P_sep SF =
      .ok (P_0_min / (SF * P_sep) - 1) := by
  have hden : SF * P_sep ≠ 0 := by positivity
  simp [NasaTM106943.eq68, hSF, hden]

/-- Claim C8 witness: minimum preload 900, separation load 500,
`SF = 1.2`: margin `900/600 - 1 = 1/2`. -/
theorem C8_separation_margin_witness :
    (6 : ℚ) / 5 ≥ 1 ∧ (0 : ℚ) < 500 ∧
      NasaTM106943.eq68 900 500 (6 / 5) = .ok (900 / (6 / 5 * 500) - 1) :=
  ⟨by norm_num, by norm_num,
    C8_separation_margin 900 500 (6 / 5) (by norm_num) (by norm_num)⟩

/-- Claim C9 counterexample: the TM-106943 stiffness-factor formula
`eq29` performs no input validation: at the non-positive bolt
stiffness `K_b = 0` (with `K_j = 1`) it returns the value `0` instead
of failing with an invalid-stiffness error. -/
theorem C9_eq29_no_validation_counterexample :
    NasaTM106943.eq29 0 1 = .ok 0 := by
  norm_num [NasaTM106943.eq29]

/-- Claim C9 (amended): for all positive bolt and joint stiffnesses the
stiffness ratio `k_b / (k_b + k_c)` lies strictly in `(0, 1)` and is
returned by both NASA-STD-5020B `eq9` and TM-106943 `eq29`; `eq9`
rejects a non-positive stiffness with an assertion error, but `eq29`
has no such validation and can return a value for non-positive
stiffness. -/
theorem C9_stiffness_ratio :
    (∀ k_b k_c : ℚ, 0 < k_b → 0 < k_c →
      NasaStd5020B.eq9 k_b k_c = .ok (k_b / (k_b + k_c)) ∧
        NasaTM106943.eq29 k_b k_c = .ok (k_b / (k_b + k_c)) ∧
        0 < k_b / (k_b + k_c) ∧ k_b / (k_b + k_c) < 1) ∧
    (∀ k_b k_c : ℚ, ¬ (k_b > 0) ∨ ¬ (k_c > 0) →
      NasaStd5020B.eq9 k_b k_c = .error .assertionError) := by
  constructor
  · intro k_b k_c hb hc
    have hsum : 0 < k_b + k_c := by linarith
    refine ⟨?_, ?_, div_pos hb hsum, (div_lt_one hsum).mpr (by linarith)⟩
    · rw [NasaStd5020B.eq9, if_neg (not_not_intro hb), if_neg (not_not_intro hc)]
    · rw [NasaTM106943.eq29, if_neg (ne_of_gt hsum)]
  · intro k_b k_c h
    rcases h with h | h
    · rw [NasaStd5020B.eq9, if_pos h]
    · by_cases hb : k_b > 0
      · rw [NasaStd5020B.eq9, if_neg (not_not_intro hb), if_pos h]
      · rw [NasaStd5020B.eq9, if_pos hb]

/-- Claim C9 witness: both stiffness-factor formulas at
`k_b = k_c = 1` give `phi = 1/2 ∈ (0, 1)`. -/
theorem C9_stiffness_ratio_witness :
    (0 : ℚ) < 1 ∧
      (NasaStd5020B.eq9 1 1 = .ok (1 / (1 + 1)) ∧
        NasaTM106943.eq29 1 1 = .ok (1 / (1 + 1)) ∧
        (0 : ℚ) < 1 / (1 + 1) ∧ (1 : ℚ) / (1 + 1) < 1) :=
  ⟨by norm_num, C9_stiffness_ratio.1 1 1 (by norm_num) (by norm_num)⟩

end ThreadFast

namespace ThreadFast

/-- Claim C1 counterexample: with `R_t = R_s = 0.5` the legacy
combined-loading margin `eq59` does not equal
`1/interaction - 1 = 1/0.375 - 1 ≈ 1.667`: the source takes the
square root of the interaction value. -/
theorem C1_eq59_reciprocal_counterexample :
    NasaTM106943.eq59 (1 / 2) (1 / 2) ≠ 1 / ((3 : ℝ) / 8) - 1 := by
  unfold NasaTM106943.eq59
  have hsum : ((1 : ℝ) / 2) ^ 2 + ((1 : ℝ) / 2) ^ 3 = 3 / 8 := by norm_num
  rw [hsum]
  intro h
  have hpos : (0 : ℝ) < Real.sqrt (3 / 8) := Real.sqrt_pos.mpr (by norm_num)
  have hr : 1 / ((3 : ℝ) / 8) = 8 / 3 := by norm_num
  have h1 : 1 / Real.sqrt ((3 : ℝ) / 8) = 8 / 3 := by linarith
  rw [div_eq_iff (ne_of_gt hpos)] at h1
  have h2 : Real.sqrt ((3 : ℝ) / 8) = 3 / 8 := by linarith
  have h3 := Real.sq_sqrt (show (0 : ℝ) ≤ 3 / 8 by norm_num)
  rw [h2] at h3
  norm_num at h3

/-- Claim C1 (amended): the legacy TM-106943 combined-loading margin is
`1/sqrt(interaction) - 1`, not `1/interaction - 1`: `eq62` with zero
bending ratio coincides with `eq59`, and with
`R_t = R_s = 0.5` the interaction value is `0.375` and the returned
margin is `1/sqrt(0.375) - 1 ≈ 0.633`. -/
theorem C1_combined_loading_margin :
    (∀ R_t R_s : ℝ, NasaTM106943.eq62 R_t 0 R_s = NasaTM106943.eq59 R_t R_s) ∧
      ((1 / 2 : ℝ) ^ 2 + (1 / 2 : ℝ) ^ 3 = 3 / 8) ∧
      NasaTM106943.eq59 (1 / 2) (1 / 2) = 1 / Real.sqrt (3 / 8) - 1 := by
  refine ⟨?_, by norm_num, ?_⟩
  · intro R_t R_s
    simp [NasaTM106943.eq62, NasaTM106943.eq59]
  · unfold NasaTM106943.eq59
    norm_num

/-- Claim C10: for every positive major diameter and pitch, the ISO
basic diameters are ordered: minor diameter `d - (5/4)H` is below the
pitch diameter `d - (3/4)H`, which is below the major diameter `d`,
where `H = (sqrt 3 / 2) * pitch` from ISO 68. -/
theorem C10_basic_diameter_ordering (d P : ℝ) (hd : 0 < d) (hP : 0 < P) :
    ∃ H, Iso68.eq_H P = .ok H ∧
      Iso724.eq_d_1 d H < Iso724.eq_d_2 d H ∧ Iso724.eq_d_2 d H < d := by
  have h3 : (0 : ℝ) < Real.sqrt 3 := Real.sqrt_pos.mpr (by norm_num)
  have hH : 0 < Real.sqrt 3 / 2 * P := by positivity
  refine ⟨Real.sqrt 3 / 2 * P, ?_, ?_, ?_⟩
  · rw [Iso68.eq_H, if_neg (not_not_intro hP)]
  · unfold Iso724.eq_d_1 Iso724.eq_d_2
    linarith
  · unfold Iso724.eq_d_2
    linarith

/-- Claim C10 witness: the diameter ordering at major diameter 1 and
pitch 1. -/
theorem C10_basic_diameter_ordering_witness :
    (0 : ℝ) < 1 ∧ (0 : ℝ) < 1 ∧
      ∃ H, Iso68.eq_H 1 = .ok H ∧
        Iso724.eq_d_1 1 H < Iso724.eq_d_2 1 H ∧ Iso724.eq_d_2 1 H < 1 :=
  ⟨by norm_num, by norm_num,
    C10_basic_diameter_ordering 1 1 (by norm_num) (by norm_num)⟩

end ThreadFast
